import Mathlib

/-!
Verification development for `build-icons.py`.

The script is embedded shallowly:
* the filesystem is a map from path to file bytes plus a set of directories;
* the PIL image library is abstracted by an environment `Env Img` whose
  operations (`decode`, `resize`, `encode`) may fail, returning `Option`;
  a raised exception in the Python code corresponds to a `none` result;
* the `curl` subprocess is abstracted by `curlOk` (its return code is zero)
  and `curlBytes` (the response body it writes on success);
* `create_icon_from_favicon` and the `__main__` block become the functions
  `create_icon_from_favicon` and `main_run` below; the printed lines are
  collected in a log (the interpolated exception text of the failure message
  is abstracted away, keeping the fixed message prefix).
-/

/-- File contents, as a byte sequence. -/
abbrev Bytes := List Nat

/-- PIL resampling filters; the script passes `Image.Resampling.LANCZOS`. -/
inductive Resampling
  | nearest
  | bilinear
  | bicubic
  | lanczos
deriving DecidableEq, Repr

/-- Image save formats; the script passes the string `PNG`. -/
inductive ImgFormat
  | png
  | jpeg
  | ico
deriving DecidableEq, Repr

/-- The external world of the script: the abstract image library (over an
abstract image type `Img`) and the behaviour of the one `curl` invocation.
Each library operation may fail (`none`), standing for a raised exception. -/
structure Env (Img : Type) where
  decode : Bytes → Option Img
  resize : Img → Nat × Nat → Resampling → Option Img
  encode : Img → ImgFormat → Option Bytes
  curlOk : Bool
  curlBytes : Bytes

/-- The filesystem: files by path, and which directories exist. -/
structure FS where
  files : String → Option Bytes
  dirs : String → Bool

/-- Read the bytes of a file, `none` when absent. -/
def FS.read (fs : FS) (p : String) : Option Bytes :=
  fs.files p

/-- `os.path.exists`: true when a file or a directory is at the path. -/
def FS.pathExists (fs : FS) (p : String) : Bool :=
  (fs.files p).isSome || fs.dirs p

/-- Write (create or overwrite) a file. -/
def FS.write (fs : FS) (p : String) (b : Bytes) : FS :=
  { fs with files := fun q => if q = p then some b else fs.files q }

/-- `os.makedirs(d, exist_ok=True)`. -/
def FS.makedirs (fs : FS) (d : String) : FS :=
  { fs with dirs := fun q => if q = d then true else fs.dirs q }

/-- The constant `FAVICON_SOURCE`, the path `anava-favicon-source.png`. -/
def FAVICON_SOURCE : String := "anava-favicon-source.png"

/-- The fixed download URL passed to `curl`. -/
def FAVICON_URL : String := "https://anava.ai/favicon.ico"

def icon16Path : String := "dist/icon16.png"

def icon48Path : String := "dist/icon48.png"

def icon128Path : String := "dist/icon128.png"

/-- Failure line printed by `create_icon_from_favicon` (the interpolated
exception text is abstracted away). -/
def failLine (filename : String) : String :=
  "❌ Failed to create " ++ filename

/-- Success line printed by `create_icon_from_favicon`. -/
def okLine (filename : String) (size : Nat) : String :=
  "✓ Created " ++ filename ++ " (" ++ toString size ++ "x" ++ toString size ++ ")"

def notFoundLine : String :=
  "❌ " ++ FAVICON_SOURCE ++ " not found. Downloading..."

def downloadFailLine : String :=
  "❌ Failed to download favicon"

def downloadedLine : String :=
  "✓ Downloaded " ++ FAVICON_SOURCE

def allOkLine : String :=
  "✓ All icons created successfully from Anava favicon!"

def someFailedLine : String :=
  "❌ Some icons failed to create"

/-- Result of one `create_icon_from_favicon` call: the returned boolean, the
filesystem after the call, and the printed lines. -/
structure IconResult where
  ok : Bool
  fs : FS
  log : List String

/-- `create_icon_from_favicon(size, filename)`: open `FAVICON_SOURCE`, resize
to `(size, size)` with `LANCZOS`, save as PNG to `filename`; any exception in
the `try` body is caught and turned into a `False` return. -/
def create_icon_from_favicon {Img : Type} (env : Env Img) (fs : FS)
    (size : Nat) (filename : String) : IconResult :=
  match (fs.read FAVICON_SOURCE).bind env.decode with
  | none => { ok := false, fs := fs, log := [failLine filename] }
  | some img =>
    match env.resize img (size, size) Resampling.lanczos with
    | none => { ok := false, fs := fs, log := [failLine filename] }
    | some imgResized =>
      match env.encode imgResized ImgFormat.png with
      | none => { ok := false, fs := fs, log := [failLine filename] }
      | some bytes =>
        { ok := true
          fs := fs.write filename bytes
          log := [okLine filename size] }

/-- Outcome of a whole run of the script. -/
structure RunResult where
  fs : FS
  exitCode : Nat
  netFetched : Bool
  attempts : List (Nat × String)
  outcomes : List Bool
  log : List String

/-- The three `(size, filename)` pairs the `__main__` block passes, in order. -/
def allIconTargets : List (Nat × String) :=
  [(16, icon16Path), (48, icon48Path), (128, icon128Path)]

/-- First call of the icon phase: size 16, filename `dist/icon16.png`. -/
def icon16Run {Img : Type} (env : Env Img) (fs : FS) : IconResult :=
  create_icon_from_favicon env fs 16 icon16Path

/-- Second call, on the state left by the first: size 48, filename `dist/icon48.png`. -/
def icon48Run {Img : Type} (env : Env Img) (fs : FS) : IconResult :=
  create_icon_from_favicon env (icon16Run env fs).fs 48 icon48Path

/-- Third call, on the state left by the second: size 128, filename `dist/icon128.png`. -/
def icon128Run {Img : Type} (env : Env Img) (fs : FS) : IconResult :=
  create_icon_from_favicon env (icon48Run env fs).fs 128 icon128Path

/-- The `success` accumulator after the three calls: starts at `True`, then
`success = create_icon_from_favicon(...) and success` three times. -/
def phaseSuccess {Img : Type} (env : Env Img) (fs : FS) : Bool :=
  (icon128Run env fs).ok && ((icon48Run env fs).ok && ((icon16Run env fs).ok && true))

/-- The icon-generation phase of `__main__`: the three
`create_icon_from_favicon` calls, the `success` accumulator, and the final
report / exit code. -/
def icons_phase {Img : Type} (env : Env Img) (fs : FS) (fetched : Bool)
    (log0 : List String) : RunResult :=
  { fs := (icon128Run env fs).fs
    exitCode := if phaseSuccess env fs then 0 else 1
    netFetched := fetched
    attempts := allIconTargets
    outcomes := [(icon16Run env fs).ok, (icon48Run env fs).ok, (icon128Run env fs).ok]
    log := log0 ++ (icon16Run env fs).log ++ (icon48Run env fs).log ++
      (icon128Run env fs).log ++
      (if phaseSuccess env fs then [allOkLine] else [someFailedLine]) }

/-- The whole script run: `os.makedirs` on `dist` with `exist_ok=True` at module
level, then the `__main__` block (existence check, optional `curl` download
with `exit(1)` on a non-zero return code, then the icon phase). -/
def main_run {Img : Type} (env : Env Img) (fs0 : FS) : RunResult :=
  let fs1 := fs0.makedirs "dist"
  if fs1.pathExists FAVICON_SOURCE then
    icons_phase env fs1 false []
  else
    if env.curlOk then
      icons_phase env (fs1.write FAVICON_SOURCE env.curlBytes) true
        [notFoundLine, downloadedLine]
    else
      { fs := fs1
        exitCode := 1
        netFetched := true
        attempts := []
        outcomes := []
        log := [notFoundLine, downloadFailLine] }

/-- One whole open-resize-encode pipeline for a given source read and size:
`some` exactly when every step of the `try` body succeeds, carrying the PNG
bytes that get written. -/
def pipelineOut {Img : Type} (env : Env Img) (src : Option Bytes)
    (size : Nat) : Option Bytes :=
  ((src.bind env.decode).bind
      (fun img => env.resize img (size, size) Resampling.lanczos)).bind
    (fun imgResized => env.encode imgResized ImgFormat.png)

/-- A concrete always-succeeding library environment over the trivial image
type, with a succeeding download. -/
def envOk : Env Unit :=
  { decode := fun _ => some ()
    resize := fun _ _ _ => some ()
    encode := fun _ _ => some [7]
    curlOk := true
    curlBytes := [1, 2, 3] }

/-- A concrete environment whose decoder rejects every byte string
(a corrupt or unreadable source image). -/
def envBad : Env Unit :=
  { decode := fun _ => none
    resize := fun _ _ _ => some ()
    encode := fun _ _ => some [7]
    curlOk := true
    curlBytes := [1, 2, 3] }

/-- A concrete environment whose `curl` invocation fails. -/
def envCurlFail : Env Unit :=
  { decode := fun _ => some ()
    resize := fun _ _ _ => some ()
    encode := fun _ _ => some [7]
    curlOk := false
    curlBytes := [] }

/-- A filesystem holding just the source image. -/
def fsWithSource : FS :=
  { files := fun p => if p = FAVICON_SOURCE then some [9, 9] else none
    dirs := fun _ => false }

/-- The empty filesystem. -/
def fsEmpty : FS :=
  { files := fun _ => none
    dirs := fun _ => false }

/-! ### Characterization lemmas -/

theorem create_char {Img : Type} (env : Env Img) (fs : FS) (size : Nat)
    (filename : String) :
    create_icon_from_favicon env fs size filename =
      match pipelineOut env (fs.files FAVICON_SOURCE) size with
      | some bytes =>
          { ok := true
            fs := fs.write filename bytes
            log := [okLine filename size] }
      | none => { ok := false, fs := fs, log := [failLine filename] } := by
  unfold create_icon_from_favicon pipelineOut FS.read
  cases hd : (fs.files FAVICON_SOURCE).bind env.decode with
  | none => rfl
  | some img =>
    cases hr : env.resize img (size, size) Resampling.lanczos with
    | none => simp [hr]
    | some imgResized =>
      cases he : env.encode imgResized ImgFormat.png with
      | none => simp [hr, he]
      | some bytes => simp [hr, he]

theorem create_ok_iff {Img : Type} (env : Env Img) (fs : FS) (size : Nat)
    (filename : String) :
    (create_icon_from_favicon env fs size filename).ok = true ↔
      (pipelineOut env (fs.files FAVICON_SOURCE) size).isSome = true := by
  rw [create_char]
  cases pipelineOut env (fs.files FAVICON_SOURCE) size <;> simp

theorem create_files {Img : Type} (env : Env Img) (fs : FS) (size : Nat)
    (filename p : String) :
    ((create_icon_from_favicon env fs size filename).fs).files p =
      if p = filename then
        match pipelineOut env (fs.files FAVICON_SOURCE) size with
        | some bytes => some bytes
        | none => fs.files p
      else fs.files p := by
  rw [create_char]
  cases pipelineOut env (fs.files FAVICON_SOURCE) size with
  | none => exact (ite_self (fs.files p)).symm
  | some bytes => rfl

theorem create_dirs {Img : Type} (env : Env Img) (fs : FS) (size : Nat)
    (filename : String) :
    ((create_icon_from_favicon env fs size filename).fs).dirs = fs.dirs := by
  rw [create_char]
  cases pipelineOut env (fs.files FAVICON_SOURCE) size <;> rfl

theorem create_log_of_fail {Img : Type} (env : Env Img) (fs : FS) (size : Nat)
    (filename : String)
    (h : (create_icon_from_favicon env fs size filename).ok = false) :
    (create_icon_from_favicon env fs size filename).log = [failLine filename] := by
  rw [create_char] at h ⊢
  revert h
  cases pipelineOut env (fs.files FAVICON_SOURCE) size with
  | none => intro h; rfl
  | some bytes => intro h; exact Bool.noConfusion h

theorem create_files_frame {Img : Type} (env : Env Img) (fs : FS) (size : Nat)
    (filename p : String) (h : p ≠ filename) :
    ((create_icon_from_favicon env fs size filename).fs).files p = fs.files p := by
  rw [create_files, if_neg h]

theorem icon16Run_frame {Img : Type} (env : Env Img) (fs : FS) (p : String)
    (h : p ≠ icon16Path) :
    ((icon16Run env fs).fs).files p = fs.files p := by
  unfold icon16Run
  exact create_files_frame env fs 16 icon16Path p h

theorem icon48Run_frame {Img : Type} (env : Env Img) (fs : FS) (p : String)
    (h16 : p ≠ icon16Path) (h48 : p ≠ icon48Path) :
    ((icon48Run env fs).fs).files p = fs.files p := by
  unfold icon48Run
  rw [create_files_frame _ _ 48 icon48Path p h48]
  exact icon16Run_frame env fs p h16

theorem icon128Run_frame {Img : Type} (env : Env Img) (fs : FS) (p : String)
    (h16 : p ≠ icon16Path) (h48 : p ≠ icon48Path) (h128 : p ≠ icon128Path) :
    ((icon128Run env fs).fs).files p = fs.files p := by
  unfold icon128Run
  rw [create_files_frame _ _ 128 icon128Path p h128]
  exact icon48Run_frame env fs p h16 h48

theorem icon16Run_src {Img : Type} (env : Env Img) (fs : FS) :
    ((icon16Run env fs).fs).files FAVICON_SOURCE = fs.files FAVICON_SOURCE :=
  icon16Run_frame env fs FAVICON_SOURCE (by decide)

theorem icon48Run_src {Img : Type} (env : Env Img) (fs : FS) :
    ((icon48Run env fs).fs).files FAVICON_SOURCE = fs.files FAVICON_SOURCE :=
  icon48Run_frame env fs FAVICON_SOURCE (by decide) (by decide)

theorem icon128Run_src {Img : Type} (env : Env Img) (fs : FS) :
    ((icon128Run env fs).fs).files FAVICON_SOURCE = fs.files FAVICON_SOURCE :=
  icon128Run_frame env fs FAVICON_SOURCE (by decide) (by decide) (by decide)

theorem icon16Run_ok {Img : Type} (env : Env Img) (fs : FS) :
    (icon16Run env fs).ok = true ↔
      (pipelineOut env (fs.files FAVICON_SOURCE) 16).isSome = true :=
  create_ok_iff env fs 16 icon16Path

theorem icon48Run_ok {Img : Type} (env : Env Img) (fs : FS) :
    (icon48Run env fs).ok = true ↔
      (pipelineOut env (fs.files FAVICON_SOURCE) 48).isSome = true := by
  unfold icon48Run
  rw [create_ok_iff, icon16Run_src]

theorem icon128Run_ok {Img : Type} (env : Env Img) (fs : FS) :
    (icon128Run env fs).ok = true ↔
      (pipelineOut env (fs.files FAVICON_SOURCE) 128).isSome = true := by
  unfold icon128Run
  rw [create_ok_iff, icon48Run_src]

theorem phase_fs_file16 {Img : Type} (env : Env Img) (fs : FS) :
    ((icon128Run env fs).fs).files icon16Path =
      match pipelineOut env (fs.files FAVICON_SOURCE) 16 with
      | some bytes => some bytes
      | none => fs.files icon16Path := by
  unfold icon128Run
  rw [create_files_frame _ _ 128 icon128Path icon16Path (by decide)]
  unfold icon48Run
  rw [create_files_frame _ _ 48 icon48Path icon16Path (by decide)]
  unfold icon16Run
  rw [create_files, if_pos rfl]

theorem phase_fs_file48 {Img : Type} (env : Env Img) (fs : FS) :
    ((icon128Run env fs).fs).files icon48Path =
      match pipelineOut env (fs.files FAVICON_SOURCE) 48 with
      | some bytes => some bytes
      | none => fs.files icon48Path := by
  unfold icon128Run
  rw [create_files_frame _ _ 128 icon128Path icon48Path (by decide)]
  unfold icon48Run
  rw [create_files, if_pos rfl, icon16Run_src,
    icon16Run_frame env fs icon48Path (by decide)]

theorem phase_fs_file128 {Img : Type} (env : Env Img) (fs : FS) :
    ((icon128Run env fs).fs).files icon128Path =
      match pipelineOut env (fs.files FAVICON_SOURCE) 128 with
      | some bytes => some bytes
      | none => fs.files icon128Path := by
  unfold icon128Run
  rw [create_files, if_pos rfl, icon48Run_src,
    icon48Run_frame env fs icon128Path (by decide) (by decide)]

theorem icon128Run_dirs {Img : Type} (env : Env Img) (fs : FS) :
    ((icon128Run env fs).fs).dirs = fs.dirs := by
  unfold icon128Run icon48Run icon16Run
  rw [create_dirs, create_dirs, create_dirs]

theorem phaseSuccess_iff {Img : Type} (env : Env Img) (fs : FS) :
    phaseSuccess env fs = true ↔
      ((icon16Run env fs).ok = true ∧ (icon48Run env fs).ok = true ∧
        (icon128Run env fs).ok = true) := by
  unfold phaseSuccess
  cases h16 : (icon16Run env fs).ok <;> cases h48 : (icon48Run env fs).ok <;>
    cases h128 : (icon128Run env fs).ok <;> simp

theorem makedirs_files (fs : FS) (d : String) :
    (fs.makedirs d).files = fs.files := rfl

theorem makedirs_pathExists_src (fs : FS) :
    (fs.makedirs "dist").pathExists FAVICON_SOURCE =
      fs.pathExists FAVICON_SOURCE := by
  show ((fs.files FAVICON_SOURCE).isSome ||
      (if FAVICON_SOURCE = "dist" then true else fs.dirs FAVICON_SOURCE)) =
    ((fs.files FAVICON_SOURCE).isSome || fs.dirs FAVICON_SOURCE)
  rw [if_neg (by decide : ¬ FAVICON_SOURCE = "dist")]

theorem main_run_present {Img : Type} (env : Env Img) (fs0 : FS)
    (h : fs0.pathExists FAVICON_SOURCE = true) :
    main_run env fs0 = icons_phase env (fs0.makedirs "dist") false [] := by
  unfold main_run
  rw [if_pos ((makedirs_pathExists_src fs0).trans h)]

theorem main_run_absent_curl_ok {Img : Type} (env : Env Img) (fs0 : FS)
    (h : fs0.pathExists FAVICON_SOURCE = false) (hc : env.curlOk = true) :
    main_run env fs0 =
      icons_phase env ((fs0.makedirs "dist").write FAVICON_SOURCE env.curlBytes)
        true [notFoundLine, downloadedLine] := by
  unfold main_run
  rw [if_neg (by rw [makedirs_pathExists_src, h]; exact Bool.false_ne_true),
    if_pos hc]

theorem main_run_absent_curl_fail {Img : Type} (env : Env Img) (fs0 : FS)
    (h : fs0.pathExists FAVICON_SOURCE = false) (hc : env.curlOk = false) :
    main_run env fs0 =
      { fs := fs0.makedirs "dist"
        exitCode := 1
        netFetched := true
        attempts := []
        outcomes := []
        log := [notFoundLine, downloadFailLine] } := by
  unfold main_run
  rw [if_neg (by rw [makedirs_pathExists_src, h]; exact Bool.false_ne_true),
    if_neg (by rw [hc]; exact Bool.false_ne_true)]

theorem bool_false_of_not_true {b : Bool} (h : ¬ b = true) : b = false := by
  cases b
  · rfl
  · exact absurd rfl h

theorem pathExists_of_file (fs : FS) (p : String)
    (h : (fs.files p).isSome = true) : fs.pathExists p = true := by
  unfold FS.pathExists
  rw [h]
  rfl

theorem pipelineOut_none_of_decode_none {Img : Type} (env : Env Img)
    (bs : Bytes) (size : Nat) (h : env.decode bs = none) :
    pipelineOut env (some bs) size = none := by
  unfold pipelineOut
  simp [h]

theorem pipelineOut_some {Img : Type} (env : Env Img) (bs : Bytes)
    (img imgR : Img) (b : Bytes) (size : Nat)
    (hdec : env.decode bs = some img)
    (hr : env.resize img (size, size) Resampling.lanczos = some imgR)
    (he : env.encode imgR ImgFormat.png = some b) :
    pipelineOut env (some bs) size = some b := by
  unfold pipelineOut
  simp [hdec, hr, he]

theorem pipeline_isSome_iff {Img : Type} (env : Env Img) (src : Option Bytes)
    (size : Nat) :
    (pipelineOut env src size).isSome = true ↔
      ∃ img, src.bind env.decode = some img ∧
        ∃ imgResized, env.resize img (size, size) Resampling.lanczos = some imgResized ∧
          ∃ bytes, env.encode imgResized ImgFormat.png = some bytes := by
  unfold pipelineOut
  cases hd : src.bind env.decode with
  | none => simp
  | some img =>
    cases hr : env.resize img (size, size) Resampling.lanczos with
    | none => simp [hr]
    | some imgR =>
      cases he : env.encode imgR ImgFormat.png with
      | none => simp [hr, he]
      | some bytes => simp [hr, he]

theorem phase_exit_split {Img : Type} (env : Env Img) (fs : FS) (fetched : Bool)
    (l : List String) :
    ((icons_phase env fs fetched l).exitCode = 0 ↔
      (icons_phase env fs fetched l).outcomes = [true, true, true]) ∧
    ((icons_phase env fs fetched l).exitCode = 0 ∨
      (icons_phase env fs fetched l).exitCode = 1) ∧
    (∀ a b c : Bool, (icons_phase env fs fetched l).outcomes = [a, b, c] →
      (icons_phase env fs fetched l).exitCode = if a && b && c then 0 else 1) := by
  unfold icons_phase phaseSuccess
  cases h16 : (icon16Run env fs).ok <;> cases h48 : (icon48Run env fs).ok <;>
    cases h128 : (icon128Run env fs).ok <;>
    refine ⟨by simp, by simp, ?_⟩ <;>
    · intro a b c hlist
      injection hlist with h1 hlist
      injection hlist with h2 hlist
      injection hlist with h3 _
      subst h1
      subst h2
      subst h3
      simp

theorem icon16Run_log_of_fail {Img : Type} (env : Env Img) (fs : FS)
    (h : (icon16Run env fs).ok = false) :
    (icon16Run env fs).log = [failLine icon16Path] :=
  create_log_of_fail env fs 16 icon16Path h

theorem icon48Run_log_of_fail {Img : Type} (env : Env Img) (fs : FS)
    (h : (icon48Run env fs).ok = false) :
    (icon48Run env fs).log = [failLine icon48Path] :=
  create_log_of_fail env (icon16Run env fs).fs 48 icon48Path h

theorem icon128Run_log_of_fail {Img : Type} (env : Env Img) (fs : FS)
    (h : (icon128Run env fs).ok = false) :
    (icon128Run env fs).log = [failLine icon128Path] :=
  create_log_of_fail env (icon48Run env fs).fs 128 icon128Path h

theorem phase_reported {Img : Type} (env : Env Img) (fs : FS) (fetched : Bool)
    (l : List String) :
    ((icon16Run env fs).ok = false →
      failLine icon16Path ∈ (icons_phase env fs fetched l).log) ∧
    ((icon48Run env fs).ok = false →
      failLine icon48Path ∈ (icons_phase env fs fetched l).log) ∧
    ((icon128Run env fs).ok = false →
      failLine icon128Path ∈ (icons_phase env fs fetched l).log) := by
  unfold icons_phase
  refine ⟨fun h => ?_, fun h => ?_, fun h => ?_⟩
  · rw [icon16Run_log_of_fail env fs h]
    simp
  · rw [icon48Run_log_of_fail env fs h]
    simp
  · rw [icon128Run_log_of_fail env fs h]
    simp

theorem files_none_of_not_exists (fs : FS) (p : String)
    (h : fs.pathExists p = false) : fs.files p = none := by
  unfold FS.pathExists at h
  cases hx : fs.files p with
  | none => rfl
  | some b =>
    rw [hx] at h
    exact Bool.noConfusion h

theorem phase_c2_second {Img : Type} (env : Env Img) (fs : FS) (fetched : Bool)
    (l : List String) :
    ∀ a b c : Bool, (icons_phase env fs fetched l).outcomes = [a, b, c] →
      ((a = false → failLine icon16Path ∈ (icons_phase env fs fetched l).log) ∧
       (b = false → failLine icon48Path ∈ (icons_phase env fs fetched l).log) ∧
       (c = false → failLine icon128Path ∈ (icons_phase env fs fetched l).log)) := by
  intro a b c hlist
  have hlist' : [(icon16Run env fs).ok, (icon48Run env fs).ok,
      (icon128Run env fs).ok] = [a, b, c] := hlist
  injection hlist' with h1 hrest
  injection hrest with h2 hrest
  injection hrest with h3 _
  exact ⟨fun ha => (phase_reported env fs fetched l).1 (h1.trans ha),
    fun hb => (phase_reported env fs fetched l).2.1 (h2.trans hb),
    fun hc => (phase_reported env fs fetched l).2.2 (h3.trans hc)⟩

theorem phase_c2_third {Img : Type} (env : Env Img) (fs : FS) (fetched : Bool)
    (l : List String) (bs : Bytes)
    (hsrc : fs.files FAVICON_SOURCE = some bs) (hdec : env.decode bs = none) :
    (icons_phase env fs fetched l).outcomes = [false, false, false] ∧
    (icons_phase env fs fetched l).exitCode = 1 := by
  have h16 : (icon16Run env fs).ok = false := by
    apply bool_false_of_not_true
    intro h
    have h2 := (icon16Run_ok env fs).mp h
    rw [hsrc, pipelineOut_none_of_decode_none env bs 16 hdec] at h2
    exact Bool.noConfusion h2
  have h48 : (icon48Run env fs).ok = false := by
    apply bool_false_of_not_true
    intro h
    have h2 := (icon48Run_ok env fs).mp h
    rw [hsrc, pipelineOut_none_of_decode_none env bs 48 hdec] at h2
    exact Bool.noConfusion h2
  have h128 : (icon128Run env fs).ok = false := by
    apply bool_false_of_not_true
    intro h
    have h2 := (icon128Run_ok env fs).mp h
    rw [hsrc, pipelineOut_none_of_decode_none env bs 128 hdec] at h2
    exact Bool.noConfusion h2
  constructor
  · show [(icon16Run env fs).ok, (icon48Run env fs).ok,
      (icon128Run env fs).ok] = [false, false, false]
    rw [h16, h48, h128]
  · have hps : phaseSuccess env fs = false := by
      unfold phaseSuccess
      rw [h128]
      rfl
    show (if phaseSuccess env fs then (0 : Nat) else 1) = 1
    rw [hps]
    rfl

/-- C1: the process exits with code 0 iff all three per-icon outcomes
(for sizes 16, 48, 128, in order) are `true`; the only other exit code is
the non-zero 1; and whenever the three per-icon outcomes exist, the exit
code is determined by their logical AND. -/
theorem C1_exit_is_and_of_outcomes {Img : Type} (env : Env Img) (fs0 : FS) :
    ((main_run env fs0).exitCode = 0 ↔
      (main_run env fs0).outcomes = [true, true, true]) ∧
    ((main_run env fs0).exitCode = 0 ∨ (main_run env fs0).exitCode = 1) ∧
    (∀ a b c : Bool, (main_run env fs0).outcomes = [a, b, c] →
      (main_run env fs0).exitCode = if a && b && c then 0 else 1) := by
  by_cases hp : fs0.pathExists FAVICON_SOURCE = true
  · rw [main_run_present env fs0 hp]
    exact phase_exit_split env (fs0.makedirs "dist") false []
  · have hp' := bool_false_of_not_true hp
    by_cases hc : env.curlOk = true
    · rw [main_run_absent_curl_ok env fs0 hp' hc]
      exact phase_exit_split env _ true _
    · rw [main_run_absent_curl_fail env fs0 hp' (bool_false_of_not_true hc)]
      refine ⟨by simp, Or.inr rfl, ?_⟩
      intro a b c hlist
      exact absurd hlist (by simp)

theorem C1_witness :
    (main_run envOk fsWithSource).outcomes = [true, true, true] ∧
    (main_run envOk fsWithSource).exitCode = if true && true && true then 0 else 1 :=
  ⟨rfl, (C1_exit_is_and_of_outcomes envOk fsWithSource).2.2 true true true rfl⟩

/-- C2: per-icon fault isolation: whenever any icon is attempted all three
are attempted (in the fixed order); any `false` outcome is reported with its
failure line; and with a source image whose bytes the decoder rejects
(corrupt/unreadable), all three attempts are made, all three fail, and the
process exits non-zero. -/
theorem C2_fault_isolation {Img : Type} (env : Env Img) (fs0 : FS) :
    ((main_run env fs0).attempts ≠ [] →
      (main_run env fs0).attempts = allIconTargets) ∧
    (∀ a b c : Bool, (main_run env fs0).outcomes = [a, b, c] →
      ((a = false → failLine icon16Path ∈ (main_run env fs0).log) ∧
       (b = false → failLine icon48Path ∈ (main_run env fs0).log) ∧
       (c = false → failLine icon128Path ∈ (main_run env fs0).log))) ∧
    (∀ bs : Bytes, fs0.files FAVICON_SOURCE = some bs → env.decode bs = none →
      (main_run env fs0).attempts = allIconTargets ∧
      (main_run env fs0).outcomes = [false, false, false] ∧
      (main_run env fs0).exitCode = 1) := by
  by_cases hp : fs0.pathExists FAVICON_SOURCE = true
  · rw [main_run_present env fs0 hp]
    refine ⟨fun _ => rfl, phase_c2_second env _ false [], ?_⟩
    intro bs hsrc hdec
    have hs1 : (fs0.makedirs "dist").files FAVICON_SOURCE = some bs := hsrc
    exact ⟨rfl, (phase_c2_third env _ false [] bs hs1 hdec).1,
      (phase_c2_third env _ false [] bs hs1 hdec).2⟩
  · have hp' := bool_false_of_not_true hp
    have hnone := files_none_of_not_exists fs0 FAVICON_SOURCE hp'
    by_cases hc : env.curlOk = true
    · rw [main_run_absent_curl_ok env fs0 hp' hc]
      refine ⟨fun _ => rfl, phase_c2_second env _ true _, ?_⟩
      intro bs hsrc hdec
      rw [hnone] at hsrc
      exact Option.noConfusion hsrc
    · rw [main_run_absent_curl_fail env fs0 hp' (bool_false_of_not_true hc)]
      refine ⟨fun hne => absurd rfl hne, ?_, ?_⟩
      · intro a b c hlist
        exact absurd hlist (by simp)
      · intro bs hsrc hdec
        rw [hnone] at hsrc
        exact Option.noConfusion hsrc

theorem C2_witness :
    fsWithSource.files FAVICON_SOURCE = some [9, 9] ∧
    envBad.decode [9, 9] = none ∧
    ((main_run envBad fsWithSource).attempts = allIconTargets ∧
     (main_run envBad fsWithSource).outcomes = [false, false, false] ∧
     (main_run envBad fsWithSource).exitCode = 1) :=
  ⟨rfl, rfl, (C2_fault_isolation envBad fsWithSource).2.2 [9, 9] rfl rfl⟩

/-- C3: when the source image is absent and the `curl` download fails, the
run exits with code 1, no resize is attempted, and none of the three icon
output files changes. -/
theorem C3_fetch_failure_halts {Img : Type} (env : Env Img) (fs0 : FS)
    (habs : fs0.pathExists FAVICON_SOURCE = false) (hc : env.curlOk = false) :
    (main_run env fs0).exitCode = 1 ∧
    (main_run env fs0).attempts = [] ∧
    ((main_run env fs0).fs).files icon16Path = fs0.files icon16Path ∧
    ((main_run env fs0).fs).files icon48Path = fs0.files icon48Path ∧
    ((main_run env fs0).fs).files icon128Path = fs0.files icon128Path := by
  rw [main_run_absent_curl_fail env fs0 habs hc]
  exact ⟨rfl, rfl, rfl, rfl, rfl⟩

theorem C3_witness :
    fsEmpty.pathExists FAVICON_SOURCE = false ∧ envCurlFail.curlOk = false ∧
    ((main_run envCurlFail fsEmpty).exitCode = 1 ∧
     (main_run envCurlFail fsEmpty).attempts = [] ∧
     ((main_run envCurlFail fsEmpty).fs).files icon16Path = fsEmpty.files icon16Path ∧
     ((main_run envCurlFail fsEmpty).fs).files icon48Path = fsEmpty.files icon48Path ∧
     ((main_run envCurlFail fsEmpty).fs).files icon128Path = fsEmpty.files icon128Path) :=
  ⟨rfl, rfl, C3_fetch_failure_halts envCurlFail fsEmpty rfl rfl⟩

/-- C4: with a readable source image and library operations that succeed on
what the script requests, the run exits 0 and, for each size s in
{16, 48, 128}, writes to `dist/icon<s>.png` the PNG encoding of the LANCZOS
resize of the source image to the exact square (s, s); every other path is
untouched, so exactly the three icon files are produced. -/
theorem C4_three_icons_written {Img : Type} (env : Env Img) (fs0 : FS)
    (bs : Bytes) (img img16 img48 img128 : Img) (b16 b48 b128 : Bytes)
    (hsrc : fs0.files FAVICON_SOURCE = some bs)
    (hdec : env.decode bs = some img)
    (hr16 : env.resize img (16, 16) Resampling.lanczos = some img16)
    (he16 : env.encode img16 ImgFormat.png = some b16)
    (hr48 : env.resize img (48, 48) Resampling.lanczos = some img48)
    (he48 : env.encode img48 ImgFormat.png = some b48)
    (hr128 : env.resize img (128, 128) Resampling.lanczos = some img128)
    (he128 : env.encode img128 ImgFormat.png = some b128) :
    (main_run env fs0).exitCode = 0 ∧
    ((main_run env fs0).fs).files icon16Path = some b16 ∧
    ((main_run env fs0).fs).files icon48Path = some b48 ∧
    ((main_run env fs0).fs).files icon128Path = some b128 ∧
    (∀ p : String, p ≠ icon16Path → p ≠ icon48Path → p ≠ icon128Path →
      ((main_run env fs0).fs).files p = fs0.files p) := by
  have hp : fs0.pathExists FAVICON_SOURCE = true := by
    apply pathExists_of_file
    rw [hsrc]
    rfl
  rw [main_run_present env fs0 hp]
  have hs1 : (fs0.makedirs "dist").files FAVICON_SOURCE = some bs := hsrc
  have hP16 := pipelineOut_some env bs img img16 b16 16 hdec hr16 he16
  have hP48 := pipelineOut_some env bs img img48 b48 48 hdec hr48 he48
  have hP128 := pipelineOut_some env bs img img128 b128 128 hdec hr128 he128
  have h16ok : (icon16Run env (fs0.makedirs "dist")).ok = true := by
    rw [icon16Run_ok, hs1, hP16]
    rfl
  have h48ok : (icon48Run env (fs0.makedirs "dist")).ok = true := by
    rw [icon48Run_ok, hs1, hP48]
    rfl
  have h128ok : (icon128Run env (fs0.makedirs "dist")).ok = true := by
    rw [icon128Run_ok, hs1, hP128]
    rfl
  have hps : phaseSuccess env (fs0.makedirs "dist") = true := by
    unfold phaseSuccess
    rw [h16ok, h48ok, h128ok]
    rfl
  refine ⟨?_, ?_, ?_, ?_, ?_⟩
  · show (if phaseSuccess env (fs0.makedirs "dist") then (0 : Nat) else 1) = 0
    rw [hps]
    rfl
  · show ((icon128Run env (fs0.makedirs "dist")).fs).files icon16Path = some b16
    rw [phase_fs_file16, hs1, hP16]
  · show ((icon128Run env (fs0.makedirs "dist")).fs).files icon48Path = some b48
    rw [phase_fs_file48, hs1, hP48]
  · show ((icon128Run env (fs0.makedirs "dist")).fs).files icon128Path = some b128
    rw [phase_fs_file128, hs1, hP128]
  · intro p h16 h48 h128
    show ((icon128Run env (fs0.makedirs "dist")).fs).files p = fs0.files p
    rw [icon128Run_frame env _ p h16 h48 h128]
    rfl

theorem C4_witness :
    fsWithSource.files FAVICON_SOURCE = some [9, 9] ∧
    (main_run envOk fsWithSource).exitCode = 0 ∧
    ((main_run envOk fsWithSource).fs).files icon16Path = some [7] ∧
    ((main_run envOk fsWithSource).fs).files icon48Path = some [7] ∧
    ((main_run envOk fsWithSource).fs).files icon128Path = some [7] ∧
    ((main_run envOk fsWithSource).fs).files FAVICON_SOURCE =
      fsWithSource.files FAVICON_SOURCE :=
  have h := C4_three_icons_written envOk fsWithSource [9, 9] () () () () [7] [7] [7]
    rfl rfl rfl rfl rfl rfl rfl rfl
  ⟨rfl, h.1, h.2.1, h.2.2.1, h.2.2.2.1,
    h.2.2.2.2 FAVICON_SOURCE (by decide) (by decide) (by decide)⟩

/-- C5: if the source image file already exists, the run never invokes
`curl` (no network fetch happens). -/
theorem C5_no_fetch_when_present {Img : Type} (env : Env Img) (fs0 : FS)
    (h : (fs0.files FAVICON_SOURCE).isSome = true) :
    (main_run env fs0).netFetched = false := by
  rw [main_run_present env fs0 (pathExists_of_file fs0 FAVICON_SOURCE h)]
  rfl

theorem C5_witness :
    (fsWithSource.files FAVICON_SOURCE).isSome = true ∧
    (main_run envOk fsWithSource).netFetched = false :=
  ⟨rfl, C5_no_fetch_when_present envOk fsWithSource rfl⟩

theorem rerun_helper {Img : Type} (env : Env Img) (fs0 : FS) (s : Nat)
    (p : String) (h : (fs0.files FAVICON_SOURCE).isSome = true)
    (hchar : ∀ fs : FS, ((icon128Run env fs).fs).files p =
      match pipelineOut env (fs.files FAVICON_SOURCE) s with
      | some bytes => some bytes
      | none => fs.files p) :
    ((main_run env (main_run env fs0).fs).fs).files p =
      ((main_run env fs0).fs).files p := by
  have hp0 := pathExists_of_file fs0 FAVICON_SOURCE h
  rw [main_run_present env fs0 hp0]
  have hsrc1 : ((icons_phase env (fs0.makedirs "dist") false []).fs).files
      FAVICON_SOURCE = fs0.files FAVICON_SOURCE := by
    show ((icon128Run env (fs0.makedirs "dist")).fs).files FAVICON_SOURCE = _
    rw [icon128Run_src]
    rfl
  have hp1 : ((icons_phase env (fs0.makedirs "dist") false []).fs).pathExists
      FAVICON_SOURCE = true := by
    apply pathExists_of_file
    rw [hsrc1]
    exact h
  rw [main_run_present env _ hp1]
  show ((icon128Run env (((icons_phase env (fs0.makedirs "dist") false
      []).fs).makedirs "dist")).fs).files p =
    ((icon128Run env (fs0.makedirs "dist")).fs).files p
  rw [hchar ((((icons_phase env (fs0.makedirs "dist") false []).fs).makedirs "dist"))]
  have hms : ((((icons_phase env (fs0.makedirs "dist") false
      []).fs).makedirs "dist")).files FAVICON_SOURCE = fs0.files FAVICON_SOURCE := by
    rw [makedirs_files]
    exact hsrc1
  rw [hms]
  cases hP : pipelineOut env (fs0.files FAVICON_SOURCE) s with
  | none =>
    show ((((icons_phase env (fs0.makedirs "dist") false
        []).fs).makedirs "dist")).files p =
      ((icon128Run env (fs0.makedirs "dist")).fs).files p
    rw [makedirs_files]
    rfl
  | some b =>
    show some b = ((icon128Run env (fs0.makedirs "dist")).fs).files p
    rw [hchar (fs0.makedirs "dist")]
    have hms0 : (fs0.makedirs "dist").files FAVICON_SOURCE =
        fs0.files FAVICON_SOURCE := rfl
    rw [hms0, hP]

/-- C6: with a pre-existing source image, the resize-and-save pipeline is
deterministic in the source bytes: running the whole script a second time,
on the filesystem the first run produced, leaves all three icon output
files byte-identical to those of the first run. -/
theorem C6_idempotent_outputs {Img : Type} (env : Env Img) (fs0 : FS)
    (h : (fs0.files FAVICON_SOURCE).isSome = true) :
    ((main_run env (main_run env fs0).fs).fs).files icon16Path =
      ((main_run env fs0).fs).files icon16Path ∧
    ((main_run env (main_run env fs0).fs).fs).files icon48Path =
      ((main_run env fs0).fs).files icon48Path ∧
    ((main_run env (main_run env fs0).fs).fs).files icon128Path =
      ((main_run env fs0).fs).files icon128Path :=
  ⟨rerun_helper env fs0 16 icon16Path h (fun fs => phase_fs_file16 env fs),
   rerun_helper env fs0 48 icon48Path h (fun fs => phase_fs_file48 env fs),
   rerun_helper env fs0 128 icon128Path h (fun fs => phase_fs_file128 env fs)⟩

theorem C6_witness :
    (fsWithSource.files FAVICON_SOURCE).isSome = true ∧
    (((main_run envOk (main_run envOk fsWithSource).fs).fs).files icon16Path =
      ((main_run envOk fsWithSource).fs).files icon16Path ∧
     ((main_run envOk (main_run envOk fsWithSource).fs).fs).files icon48Path =
      ((main_run envOk fsWithSource).fs).files icon48Path ∧
     ((main_run envOk (main_run envOk fsWithSource).fs).fs).files icon128Path =
      ((main_run envOk fsWithSource).fs).files icon128Path) :=
  ⟨rfl, C6_idempotent_outputs envOk fsWithSource rfl⟩

/-- C7: when the source image is missing and the download succeeds, the run
is exactly the icon phase started on a filesystem in which the fetched bytes
are already stored at the source path: a fetch occurred, and the source file
holds the fetched bytes before the resize phase begins and still at the end
of the run. -/
theorem C7_fetch_then_resize {Img : Type} (env : Env Img) (fs0 : FS)
    (habs : fs0.pathExists FAVICON_SOURCE = false) (hc : env.curlOk = true) :
    (main_run env fs0).netFetched = true ∧
    main_run env fs0 =
      icons_phase env ((fs0.makedirs "dist").write FAVICON_SOURCE env.curlBytes)
        true [notFoundLine, downloadedLine] ∧
    ((fs0.makedirs "dist").write FAVICON_SOURCE env.curlBytes).files
      FAVICON_SOURCE = some env.curlBytes ∧
    ((main_run env fs0).fs).files FAVICON_SOURCE = some env.curlBytes := by
  have hm := main_run_absent_curl_ok env fs0 habs hc
  have hw : ((fs0.makedirs "dist").write FAVICON_SOURCE env.curlBytes).files
      FAVICON_SOURCE = some env.curlBytes := by
    show (if FAVICON_SOURCE = FAVICON_SOURCE then some env.curlBytes
      else (fs0.makedirs "dist").files FAVICON_SOURCE) = some env.curlBytes
    rw [if_pos rfl]
  refine ⟨?_, hm, hw, ?_⟩
  · rw [hm]
    rfl
  · rw [hm]
    show ((icon128Run env ((fs0.makedirs "dist").write FAVICON_SOURCE
      env.curlBytes)).fs).files FAVICON_SOURCE = some env.curlBytes
    rw [icon128Run_src]
    exact hw

theorem C7_witness :
    fsEmpty.pathExists FAVICON_SOURCE = false ∧ envOk.curlOk = true ∧
    ((main_run envOk fsEmpty).netFetched = true ∧
     main_run envOk fsEmpty =
       icons_phase envOk ((fsEmpty.makedirs "dist").write FAVICON_SOURCE
         envOk.curlBytes) true [notFoundLine, downloadedLine] ∧
     ((fsEmpty.makedirs "dist").write FAVICON_SOURCE envOk.curlBytes).files
       FAVICON_SOURCE = some envOk.curlBytes ∧
     ((main_run envOk fsEmpty).fs).files FAVICON_SOURCE = some envOk.curlBytes) :=
  ⟨rfl, rfl, C7_fetch_then_resize envOk fsEmpty rfl rfl⟩

/-- C8: the source image is read-only input: in a run where it already
exists, the file at the source path is unchanged after each of the three
calls and at the end of the run. -/
theorem C8_source_read_only {Img : Type} (env : Env Img) (fs0 : FS)
    (h : (fs0.files FAVICON_SOURCE).isSome = true) :
    ((icon16Run env (fs0.makedirs "dist")).fs).files FAVICON_SOURCE =
      fs0.files FAVICON_SOURCE ∧
    ((icon48Run env (fs0.makedirs "dist")).fs).files FAVICON_SOURCE =
      fs0.files FAVICON_SOURCE ∧
    ((main_run env fs0).fs).files FAVICON_SOURCE = fs0.files FAVICON_SOURCE := by
  refine ⟨(icon16Run_src env _).trans rfl, (icon48Run_src env _).trans rfl, ?_⟩
  rw [main_run_present env fs0 (pathExists_of_file fs0 FAVICON_SOURCE h)]
  show ((icon128Run env (fs0.makedirs "dist")).fs).files FAVICON_SOURCE = _
  rw [icon128Run_src]
  rfl

theorem C8_witness :
    (fsWithSource.files FAVICON_SOURCE).isSome = true ∧
    (((icon16Run envOk (fsWithSource.makedirs "dist")).fs).files FAVICON_SOURCE =
      fsWithSource.files FAVICON_SOURCE ∧
     ((icon48Run envOk (fsWithSource.makedirs "dist")).fs).files FAVICON_SOURCE =
      fsWithSource.files FAVICON_SOURCE ∧
     ((main_run envOk fsWithSource).fs).files FAVICON_SOURCE =
      fsWithSource.files FAVICON_SOURCE) :=
  ⟨rfl, C8_source_read_only envOk fsWithSource rfl⟩

/-- C9: the output directory `dist` exists after every run, whatever the
initial filesystem, the library behaviour, and the download outcome —
including runs where the fetch fails and nothing else is written. -/
theorem C9_dist_always_created {Img : Type} (env : Env Img) (fs0 : FS) :
    ((main_run env fs0).fs).dirs "dist" = true := by
  have hd : ∀ fs : FS, (fs.makedirs "dist").dirs "dist" = true := by
    intro fs
    show (if "dist" = "dist" then true else fs.dirs "dist") = true
    rw [if_pos rfl]
  by_cases hp : fs0.pathExists FAVICON_SOURCE = true
  · rw [main_run_present env fs0 hp]
    show ((icon128Run env (fs0.makedirs "dist")).fs).dirs "dist" = true
    rw [icon128Run_dirs]
    exact hd fs0
  · have hp' := bool_false_of_not_true hp
    by_cases hc : env.curlOk = true
    · rw [main_run_absent_curl_ok env fs0 hp' hc]
      show ((icon128Run env ((fs0.makedirs "dist").write FAVICON_SOURCE
        env.curlBytes)).fs).dirs "dist" = true
      rw [icon128Run_dirs]
      exact hd fs0
    · rw [main_run_absent_curl_fail env fs0 hp' (bool_false_of_not_true hc)]
      exact hd fs0

theorem C9_witness : ((main_run envCurlFail fsEmpty).fs).dirs "dist" = true :=
  C9_dist_always_created envCurlFail fsEmpty

/-- C10: `create_icon_from_favicon` is total over errors: it always returns
a boolean, and returns `True` exactly when opening (reading and decoding the
source), resizing, and saving (encoding) all succeed. In the embedding the
function is defined on every input with a plain `Bool` in its result, the
counterpart of the `try/except` catching every exception. -/
theorem C10_create_total {Img : Type} (env : Env Img) (fs : FS) (size : Nat)
    (filename : String) :
    ((create_icon_from_favicon env fs size filename).ok = true ∨
      (create_icon_from_favicon env fs size filename).ok = false) ∧
    ((create_icon_from_favicon env fs size filename).ok = true ↔
      ∃ img, (fs.read FAVICON_SOURCE).bind env.decode = some img ∧
        ∃ imgResized, env.resize img (size, size) Resampling.lanczos = some imgResized ∧
          ∃ bytes, env.encode imgResized ImgFormat.png = some bytes) := by
  constructor
  · rcases Bool.eq_false_or_eq_true ((create_icon_from_favicon env fs size filename).ok)
      with hb | hb
    · exact Or.inl hb
    · exact Or.inr hb
  · rw [create_ok_iff]
    exact pipeline_isSome_iff env (fs.files FAVICON_SOURCE) size

theorem C10_witness :
    (create_icon_from_favicon envOk fsWithSource 16 icon16Path).ok = true ∨
      (create_icon_from_favicon envOk fsWithSource 16 icon16Path).ok = false :=
  (C10_create_total envOk fsWithSource 16 icon16Path).1
